import Mathlib

/-!
Verification development for the Agora ConvoAI node server (Express reference
implementation).  The definitions below are a shallow embedding of
`src/express/src/utils/validation.ts`, `src/express/src/routes/agent.ts`,
`src/express/src/routes/token.ts` and the middleware wiring of `index.ts`.

Modelling conventions:
* `process.env` is an explicit record `Env` of `Option String` fields
  (a variable that is unset is `none`); JavaScript truthiness of an
  environment value is `truthy`.
* a parsed JSON field is a `JsVal`; JavaScript truthiness of such a value
  is `truthyVal`.
* an Express middleware is a function returning `Option ErrResp`:
  `some e` models `res.status(e.status).json({error: e.error})`,
  `none` models `next()`.
-/

namespace ConvoAI

/-- A JavaScript runtime value as it can appear in a parsed JSON request
body field.  Arrays are restricted to string arrays (the only array-typed
fields, `input_modalities`/`output_modalities`, are `string[]`).  Numbers
are modelled as rationals: this covers every JSON numeric literal and makes
`Number.isInteger` and sign tests exact. -/
inductive JsVal where
  | str (s : String)
  | num (q : Rat)
  | boolv (b : Bool)
  | nullv
  | undefined
  | arr (xs : List String)
deriving DecidableEq, Repr

/-- JavaScript truthiness of an environment variable (`!process.env.X` is
`true` exactly when the variable is unset or the empty string). -/
def truthy : Option String → Bool
  | none => false
  | some s => s != ""

/-- JavaScript truthiness of a body field (`!x`): empty string, `0`, `false`,
`null` and `undefined` are falsy; every array is truthy. -/
def truthyVal : JsVal → Bool
  | .str s => s != ""
  | .num q => q != 0
  | .boolv b => b
  | .nullv => false
  | .undefined => false
  | .arr _ => true

/-- The configuration store: the environment variables the server reads. -/
structure Env where
  AGORA_APP_ID : Option String
  AGORA_APP_CERTIFICATE : Option String
  AGORA_CONVO_AI_BASE_URL : Option String
  AGORA_CUSTOMER_ID : Option String
  AGORA_CUSTOMER_SECRET : Option String
  LLM_URL : Option String
  LLM_TOKEN : Option String
  LLM_MODEL : Option String
  TTS_VENDOR : Option String
  MICROSOFT_TTS_KEY : Option String
  MICROSOFT_TTS_REGION : Option String
  MICROSOFT_TTS_VOICE_NAME : Option String
  MICROSOFT_TTS_RATE : Option String
  MICROSOFT_TTS_VOLUME : Option String
  ELEVENLABS_API_KEY : Option String
  ELEVENLABS_VOICE_ID : Option String
  ELEVENLABS_MODEL_ID : Option String
  AGENT_UID : Option String
  INPUT_MODALITIES : Option String
  OUTPUT_MODALITIES : Option String
deriving DecidableEq, Repr

/-- An error response `res.status(status).json({error})`. -/
structure ErrResp where
  status : Nat
  error : String
deriving DecidableEq, Repr

/-- Strip an exact literal from the front of a character list; `none` when
the literal is not a prefix. -/
def dropLiteral : List Char → List Char → Option (List Char)
  | [], rest => some rest
  | _ :: _, [] => none
  | l :: ls, r :: rs => if l == r then dropLiteral ls rs else none

/-- `s.startsWith(p)` (executable model of the string-prefix test). -/
def strStartsWith (s p : String) : Bool :=
  (dropLiteral p.toList s.toList).isSome

/-- `AGORA_APP_ID` and `AGORA_APP_CERTIFICATE` both set (the condition of
validation.ts, line 21, written positively). -/
def agoraCredsPresent (env : Env) : Bool :=
  truthy env.AGORA_APP_ID && truthy env.AGORA_APP_CERTIFICATE

/-- Conversational-AI provisioning credentials all set (validation.ts,
lines 30-32). -/
def convoAICredsPresent (env : Env) : Bool :=
  truthy env.AGORA_CONVO_AI_BASE_URL && truthy env.AGORA_CUSTOMER_ID
    && truthy env.AGORA_CUSTOMER_SECRET

/-- LLM endpoint configuration set (validation.ts, line 41). -/
def llmConfigPresent (env : Env) : Bool :=
  truthy env.LLM_URL && truthy env.LLM_TOKEN

/-- The five Microsoft TTS variables all set (validation.ts, lines 54-59,
and agent.ts, lines 208-214: both sites test the same five variables). -/
def microsoftTTSPresent (env : Env) : Bool :=
  truthy env.MICROSOFT_TTS_KEY && truthy env.MICROSOFT_TTS_REGION
    && truthy env.MICROSOFT_TTS_VOICE_NAME && truthy env.MICROSOFT_TTS_RATE
    && truthy env.MICROSOFT_TTS_VOLUME

/-- The three ElevenLabs TTS variables all set (validation.ts, lines 67-70,
and agent.ts, lines 230-233). -/
def elevenLabsTTSPresent (env : Env) : Bool :=
  truthy env.ELEVENLABS_API_KEY && truthy env.ELEVENLABS_VOICE_ID
    && truthy env.ELEVENLABS_MODEL_ID

/-- Embedding of `validateEnvironment` (src/express/src/utils/validation.ts,
lines 15-85): route-dependent configuration completeness check.  Only the
request path is consulted, never the body. -/
def validateEnvironment (env : Env) (path : String) : Option ErrResp :=
  if !agoraCredsPresent env then
    some ⟨500, "Agora credentials are not set"⟩
  else if strStartsWith path "/agent" then
    if !convoAICredsPresent env then
      some ⟨500, "Agora Conversation AI credentials are not set"⟩
    else if !llmConfigPresent env then
      some ⟨500, "LLM configuration is not set"⟩
    else if !(truthy env.TTS_VENDOR) then
      some ⟨500, "TTS_VENDOR is not set"⟩
    else
      let vendor := env.TTS_VENDOR.getD ""
      if vendor == "microsoft" then
        if !microsoftTTSPresent env then
          some ⟨500, "Microsoft TTS configuration is not set"⟩
        else none
      else if vendor == "elevenlabs" then
        if !elevenLabsTTSPresent env then
          some ⟨500, "ElevenLabs TTS configuration is not set"⟩
        else none
      else
        some ⟨500, "Unsupported TTS vendor: " ++ vendor⟩
  else none

/-- Embedding of `validateContentType` (validation.ts, lines 91-102). -/
def validateContentType (method : String) (isJson : Bool) : Option ErrResp :=
  if method == "POST" && !isJson then
    some ⟨415, "Unsupported Media Type. Content-Type must be application/json"⟩
  else none

/-- Field lookup in a parsed JSON object; a missing key reads as `undefined`,
as destructuring does in JavaScript. -/
def getField (kvs : List (String × JsVal)) (k : String) : JsVal :=
  match kvs.find? (fun kv => kv.1 == k) with
  | some kv => kv.2
  | none => .undefined

/-- `String.prototype.trim()`: strip leading and trailing whitespace
(modelled over ASCII whitespace, which covers every character the claims
exercise). -/
def jsTrim (s : String) : String :=
  String.mk (((s.toList.dropWhile Char.isWhitespace).reverse.dropWhile
    Char.isWhitespace).reverse)

/-- The `channel_name` checks of `validateRequestBody` (validation.ts,
lines 158-169), reached once `requester_id` has been accepted. -/
def checkChannelName (channel_name : JsVal) : Option ErrResp :=
  match channel_name with
  | .str s =>
    if s.length < 3 || s.length > 64 then
      some ⟨400, "channel_name length must be between 3 and 64 characters"⟩
    else none
  | _ => some ⟨400, "channel_name must be a string"⟩

/-- Embedding of `validateRequestBody` (validation.ts, lines 111-183).
`body = none` models a missing/null `req.body`; `some kvs` a parsed JSON
object with key/value list `kvs`. -/
def validateRequestBody (method path : String)
    (body : Option (List (String × JsVal))) : Option ErrResp :=
  if method != "POST" then none
  else
    match body with
    | none => some ⟨400, "Request body is required"⟩
    | some kvs =>
      if kvs.length == 0 then some ⟨400, "Request body is required"⟩
      else if path == "/agent/invite" then
        let requester_id := getField kvs "requester_id"
        let channel_name := getField kvs "channel_name"
        if !truthyVal requester_id then
          some ⟨400, "requester_id is required"⟩
        else if !truthyVal channel_name then
          some ⟨400, "channel_name is required"⟩
        else
          match requester_id with
          | .str s =>
            if jsTrim s == "" then some ⟨400, "requester_id cannot be empty"⟩
            else checkChannelName channel_name
          | .num q =>
            if q.den ≠ 1 ∨ q < 0 then
              some ⟨400, "requester_id must be a positive integer when provided as a number"⟩
            else checkChannelName channel_name
          | _ => some ⟨400, "requester_id must be a string or number"⟩
      else if path == "/agent/remove" then
        let agent_id := getField kvs "agent_id"
        if !truthyVal agent_id then
          some ⟨400, "agent_id is required"⟩
        else
          match agent_id with
          | .str _ => none
          | _ => some ⟨400, "agent_id must be a string"⟩
      else none

/-- An inbound HTTP request as the middleware chain sees it. -/
structure HttpReq where
  method : String
  path : String
  isJson : Bool
  body : Option (List (String × JsVal))

/-- The global middleware chain of `index.ts` (lines 1187-1196):
`validateEnvironment`, then `validateContentType`, then
`validateRequestBody`; the first middleware that responds short-circuits. -/
def middlewareChain (env : Env) (req : HttpReq) : Option ErrResp :=
  match validateEnvironment env req.path with
  | some e => some e
  | none =>
    match validateContentType req.method req.isJson with
    | some e => some e
    | none => validateRequestBody req.method req.path req.body

/-- `parseFloat` on an environment value: optional sign, then a decimal
literal, reading the longest valid numeric prefix; `none` models `NaN`.
Exponent notation is not modelled (no claim inspects the parsed value). -/
def jsParseFloat (s : String) : Option Rat :=
  let cs := s.toList.dropWhile Char.isWhitespace
  let signed : Int × List Char :=
    match cs with
    | '-' :: rest => (-1, rest)
    | '+' :: rest => (1, rest)
    | _ => (1, cs)
  let intDigits := signed.2.takeWhile Char.isDigit
  let afterInt := signed.2.drop intDigits.length
  let fracDigits :=
    match afterInt with
    | '.' :: rest => rest.takeWhile Char.isDigit
    | _ => []
  if intDigits.isEmpty && fracDigits.isEmpty then none
  else
    let iv : Nat := intDigits.foldl (fun a c => 10 * a + (c.toNat - 48)) 0
    let fv : Nat := fracDigits.foldl (fun a c => 10 * a + (c.toNat - 48)) 0
    some (signed.1 * ((iv : Rat) + (fv : Rat) / ((10 ^ fracDigits.length : Nat) : Rat)))

/-- `parseInt` on a query value: optional sign, then the longest run of
leading decimal digits; `none` models `NaN`. -/
def jsParseInt (s : String) : Option Int :=
  let cs := s.toList.dropWhile Char.isWhitespace
  let signed : Int × List Char :=
    match cs with
    | '-' :: rest => (-1, rest)
    | '+' :: rest => (1, rest)
    | _ => (1, cs)
  let ds := signed.2.takeWhile Char.isDigit
  if ds.isEmpty then none
  else some (signed.1 * ((ds.foldl (fun a c => 10 * a + (c.toNat - 48)) 0 : Nat) : Int))

/-- `x.toString()` for a body field value.  Exact for strings, booleans,
`null`, `undefined`, integers and string arrays; a non-integral number is
rendered as `num/den` (the server only stringifies values that already
passed validation, which admits only strings and non-negative integers, so
that branch is unreachable in the pipeline). -/
def jsToString : JsVal → String
  | .str s => s
  | .num q =>
    if q.den == 1 then toString q.num
    else toString q.num ++ "/" ++ toString q.den
  | .boolv b => if b then "true" else "false"
  | .nullv => "null"
  | .undefined => "undefined"
  | .arr xs => String.intercalate "," xs

/-- Microsoft TTS parameters (agora-convo-ai-types.ts); `rate`/`volume`
hold the `parseFloat` of the corresponding environment values. -/
structure MicrosoftTTSParams where
  key : String
  region : String
  voice_name : String
  rate : Option Rat
  volume : Option Rat
deriving DecidableEq, Repr

/-- ElevenLabs TTS parameters (agora-convo-ai-types.ts). -/
structure ElevenLabsTTSParams where
  api_key : String
  model_id : String
  voice_id : String
deriving DecidableEq, Repr

/-- The vendor-tagged TTS configuration. -/
inductive TTSConfig where
  | microsoft (params : MicrosoftTTSParams)
  | elevenlabs (params : ElevenLabsTTSParams)
deriving DecidableEq, Repr

/-- Embedding of `getTTSConfig` (src/express/src/routes/agent.ts, lines
206-248).  `vendor` is the raw `process.env.TTS_VENDOR` string (the code
casts it to the enum whose values are `"microsoft"` and `"elevenlabs"`);
the result is `.error msg` when the code throws `new Error(msg)`. -/
def getTTSConfig (env : Env) (vendor : String) : Except String TTSConfig :=
  if vendor == "microsoft" then
    if !microsoftTTSPresent env then
      .error "Missing Microsoft TTS environment variables"
    else
      .ok (.microsoft
        { key := env.MICROSOFT_TTS_KEY.getD ""
          region := env.MICROSOFT_TTS_REGION.getD ""
          voice_name := env.MICROSOFT_TTS_VOICE_NAME.getD ""
          rate := jsParseFloat (env.MICROSOFT_TTS_RATE.getD "")
          volume := jsParseFloat (env.MICROSOFT_TTS_VOLUME.getD "") })
  else if vendor == "elevenlabs" then
    if !elevenLabsTTSPresent env then
      .error "Missing ElevenLabs environment variables"
    else
      .ok (.elevenlabs
        { api_key := env.ELEVENLABS_API_KEY.getD ""
          model_id := env.ELEVENLABS_MODEL_ID.getD ""
          voice_id := env.ELEVENLABS_VOICE_ID.getD "" })
  else
    .error ("Unsupported TTS vendor: " ++ vendor)

/-- `RtcRole.PUBLISHER` of the agora-token library. -/
def rolePublisher : Nat := 1

/-- Model of the external signing primitive
`RtcTokenBuilder.buildTokenWithUid`: the spec treats it as an opaque signer,
so a minted credential is recorded as the tuple of arguments handed to it. -/
structure Credential where
  appId : String
  appCertificate : String
  channel : String
  uid : String
  role : Nat
  tokenExpire : Nat
  privilegeExpire : Nat
deriving DecidableEq, Repr

structure SystemMessage where
  role : String
  content : String
deriving DecidableEq, Repr

structure LLMParams where
  model : Option String
  max_tokens : Nat
  temperature : Rat
  top_p : Rat
deriving DecidableEq, Repr

structure LLMConfig where
  url : Option String
  api_key : Option String
  system_messages : List SystemMessage
  greeting_message : String
  failure_message : String
  max_history : Nat
  params : LLMParams
  input_modalities : List String
  output_modalities : List String
deriving DecidableEq, Repr

structure ASRConfig where
  language : String
  task : String
deriving DecidableEq, Repr

structure VADConfig where
  silence_duration_ms : Nat
  speech_duration_ms : Nat
  threshold : Rat
  interrupt_duration_ms : Nat
  padding_before_ms : Nat
deriving DecidableEq, Repr

structure AdvancedFeatures where
  enable_aivad : Bool
  enable_bhvs : Bool
deriving DecidableEq, Repr

structure AgoraStartProperties where
  channel : String
  token : Credential
  agent_rtc_uid : String
  remote_rtc_uids : List String
  enable_string_uid : Bool
  idle_timeout : Nat
  asr : ASRConfig
  llm : LLMConfig
  tts : TTSConfig
  vad : VADConfig
  advanced_features : AdvancedFeatures
deriving DecidableEq, Repr

/-- The outbound provisioning request body (`AgoraStartRequest`). -/
structure AgoraStartRequest where
  name : String
  properties : AgoraStartProperties
deriving DecidableEq, Repr

/-- The typed invite request body, as `req.body` is destructured by the
invite handler (`InviteAgentRequest`): `requester_id` may be any JSON
value, the remaining fields as typed. -/
structure InviteReq where
  requester_id : JsVal
  channel_name : String
  input_modalities : Option (List String)
  output_modalities : Option (List String)
deriving DecidableEq, Repr

/-- `input_modalities || process.env.X?.split(',') || dflt`: the body value
wins when present (JavaScript arrays are truthy even when empty), else the
environment value split on commas when the variable is set, else `dflt`. -/
def modalities (bodyVal : Option (List String)) (envVal : Option String)
    (dflt : List String) : List String :=
  match bodyVal with
  | some xs => xs
  | none =>
    match envVal with
    | some s => s.splitOn ","
    | none => dflt

/-- Composition of the outbound provisioning request (agent.ts, lines
32-119): unique session name, agent credential, requester identity list,
and the fixed ASR/LLM/VAD/advanced-features constants.  `nowMs` is
`Date.now()`; `rand` the random name suffix. -/
def buildStartRequest (env : Env) (req : InviteReq) (nowMs : Nat)
    (rand : String) (ttsConfig : TTSConfig) : AgoraStartRequest :=
  let agentUid := if truthy env.AGENT_UID then env.AGENT_UID.getD "" else "Agent"
  let uniqueName := "conversation-" ++ toString nowMs ++ "-" ++ rand
  let expirationTime := nowMs / 1000 + 3600
  let token : Credential :=
    { appId := env.AGORA_APP_ID.getD ""
      appCertificate := env.AGORA_APP_CERTIFICATE.getD ""
      channel := req.channel_name
      uid := agentUid
      role := rolePublisher
      tokenExpire := expirationTime
      privilegeExpire := expirationTime }
  let requesterUid := jsToString req.requester_id
  { name := uniqueName
    properties :=
    { channel := req.channel_name
      token := token
      agent_rtc_uid := agentUid
      remote_rtc_uids := [requesterUid]
      enable_string_uid := requesterUid.toList.any (fun c => c.isLower || c.isUpper)
      idle_timeout := 30
      asr := { language := "en-US", task := "conversation" }
      llm :=
      { url := env.LLM_URL
        api_key := env.LLM_TOKEN
        system_messages :=
          [{ role := "system"
             content := "You are a helpful assistant. Pretend that the text input is audio, and you are responding to it. Speak fast, clearly, and concisely." }]
        greeting_message := "Hello! How can I assist you today?"
        failure_message := "Please wait a moment."
        max_history := 10
        params :=
        { model := env.LLM_MODEL
          max_tokens := 1024
          temperature := (7 : Rat) / 10
          top_p := (95 : Rat) / 100 }
        input_modalities := modalities req.input_modalities env.INPUT_MODALITIES ["text"]
        output_modalities := modalities req.output_modalities env.OUTPUT_MODALITIES ["text", "audio"] }
      tts := ttsConfig
      vad :=
      { silence_duration_ms := 480
        speech_duration_ms := 15000
        threshold := (5 : Rat) / 10
        interrupt_duration_ms := 160
        padding_before_ms := 300 }
      advanced_features := { enable_aivad := false, enable_bhvs := false } } }

/-- The upstream `{agent_id, create_ts, state}` payload. -/
structure AgentResponse where
  agent_id : String
  create_ts : Nat
  state : String
deriving DecidableEq, Repr

/-- The upstream provisioning service's HTTP answer: `ok` is
`response.ok`, `status` the HTTP status, `bodyText` the raw body (never
read by the handler on failure), `agentData` the parsed JSON on success. -/
structure UpstreamResp where
  ok : Bool
  status : Nat
  bodyText : String
  agentData : AgentResponse
deriving DecidableEq, Repr

/-- What the invite handler sends back to the client: `success d` models
`res.json(d)` (HTTP 200 passthrough), `failure status error details` models
`res.status(status).json(...)` where `details` records the optional
`details` field of the JSON error body. -/
inductive InviteResult where
  | success (data : AgentResponse)
  | failure (status : Nat) (error : String) (details : Option String)
deriving DecidableEq, Repr

/-- Embedding of the invite route handler (agent.ts, lines 20-153).
Returns the client-visible result together with the provisioning request
that was sent upstream (`none` when the handler threw before `fetch`).
`upstream` is the provisioning service.  The credential is minted before
the TTS checks in the source; since the signer is total this ordering is
observationally preserved. -/
def inviteHandler (env : Env) (req : InviteReq) (nowMs : Nat) (rand : String)
    (upstream : AgoraStartRequest → UpstreamResp) :
    InviteResult × Option AgoraStartRequest :=
  if !(truthy env.TTS_VENDOR) then
    (.failure 500 "TTS_VENDOR is not set" none, none)
  else
    match getTTSConfig env (env.TTS_VENDOR.getD "") with
    | .error msg => (.failure 500 msg none, none)
    | .ok ttsConfig =>
      let requestBody := buildStartRequest env req nowMs rand ttsConfig
      let response := upstream requestBody
      if !response.ok then
        (.failure 500 ("Failed to start conversation: " ++ toString response.status) none,
          some requestBody)
      else
        (.success response.agentData, some requestBody)

/-- Outcome of the remove route: the client response plus whether the
upstream `/agents/{agentId}/leave` call was made. -/
structure RemoveOutcome where
  status : Nat
  error : Option String
  success : Bool
  upstreamCalled : Bool
deriving DecidableEq, Repr

/-- Embedding of the remove route handler (agent.ts, lines 157-198). -/
def removeHandler (kvs : List (String × JsVal))
    (upstream : String → UpstreamResp) : RemoveOutcome :=
  let agent_id := getField kvs "agent_id"
  if !truthyVal agent_id then
    { status := 500, error := some "agent_id is required"
      success := false, upstreamCalled := false }
  else
    let resp := upstream (jsToString agent_id)
    if !resp.ok then
      { status := 500
        error := some ("Failed to remove agent: " ++ toString resp.status)
        success := false, upstreamCalled := true }
    else
      { status := 200, error := none, success := true, upstreamCalled := true }

/-- The remove route as mounted in `index.ts`: global middleware chain,
then the handler.  A middleware response never reaches the handler, so no
upstream call is made. -/
def removeRoute (env : Env) (req : HttpReq)
    (upstream : String → UpstreamResp) : RemoveOutcome :=
  match middlewareChain env req with
  | some e =>
    { status := e.status, error := some e.error
      success := false, upstreamCalled := false }
  | none => removeHandler (req.body.getD []) upstream

/-- `Math.random().toString(36)` parameterised by the fractional base-36
digits of the drawn value: the empty digit list is the draw `0`, rendered
`"0"`; a non-empty list `ds` is rendered `"0." ++ ds`. -/
def randomToString36 (fracDigits : List Char) : String :=
  if fracDigits.isEmpty then "0" else "0." ++ String.mk fracDigits

/-- A base-36 fractional digit as `toString(36)` emits it: `0-9` or `a-z`. -/
def isBase36Digit (c : Char) : Bool := c.isLower || c.isDigit

/-- `s.substring(a, b)` for `a ≤ b`: the characters with index in `[a, b)`,
clipped to the string's length. -/
def jsSubstring (s : String) (a b : Nat) : String :=
  String.mk ((s.toList.drop a).take (b - a))

/-- Embedding of `generateChannelName` (src/express/src/routes/token.ts,
lines 72-76): `ai-conversation-<Date.now()>-<random suffix>`, where the
suffix is `Math.random().toString(36).substring(2, 8)`. -/
def generateChannelName (nowMs : Nat) (fracDigits : List Char) : String :=
  "ai-conversation-" ++ toString nowMs ++ "-"
    ++ jsSubstring (randomToString36 fracDigits) 2 8

/-- The `GET /token` success payload (the minted credential stands for the
opaque token string). -/
structure TokenResp where
  credential : Credential
  uid : String
  channel : String
deriving DecidableEq, Repr

/-- Embedding of the token route handler (token.ts, lines 27-65).
`uidQ`/`chQ` are the raw query parameters, `nowMs` is `Date.now()`,
`fracDigits` the base-36 fraction of the `Math.random()` draw. -/
def tokenHandler (env : Env) (uidQ chQ : Option String) (nowMs : Nat)
    (fracDigits : List Char) : TokenResp :=
  let uidSrc := match uidQ with
    | some u => if u != "" then u else "0"
    | none => "0"
  let uidNum := jsParseInt uidSrc
  let uidOut := match uidNum with
    | some n => toString n
    | none => "NaN"
  let channelName := match chQ with
    | some c => if c != "" then c else generateChannelName nowMs fracDigits
    | none => generateChannelName nowMs fracDigits
  let expirationTime := nowMs / 1000 + 3600
  { credential :=
    { appId := env.AGORA_APP_ID.getD ""
      appCertificate := env.AGORA_APP_CERTIFICATE.getD ""
      channel := channelName
      uid := uidOut
      role := rolePublisher
      tokenExpire := expirationTime
      privilegeExpire := expirationTime }
    uid := uidOut
    channel := channelName }

/-- Decision procedure for the spec's channel pattern
`^ai-conversation-\d+-[a-z0-9]\x7b6\x7d$`: the literal head, one or more
decimal digits, a hyphen, then exactly six characters from `[a-z0-9]`.
Taking the maximal digit run is equivalent to the regex because the
character after `\d+` must be `-`. -/
def matchesChannelExact (s : String) : Bool :=
  match dropLiteral "ai-conversation-".toList s.toList with
  | none => false
  | some rest =>
    let ds := rest.takeWhile Char.isDigit
    let rest2 := rest.drop ds.length
    !ds.isEmpty &&
      (match rest2 with
       | '-' :: suf => suf.length == 6 && suf.all isBase36Digit
       | _ => false)

/-- The requester values `validateRequestBody` accepts on the invite path:
a string whose trim is non-empty, or an integer-valued number that is
strictly positive (zero is falsy and rejected by the required-field check). -/
def requesterAccepted (v : JsVal) : Prop :=
  (∃ s, v = JsVal.str s ∧ jsTrim s ≠ "") ∨
  (∃ q, v = JsVal.num q ∧ q.den = 1 ∧ 0 < q)

/-- The remove bodies whose `agent_id` is missing, falsy, or not a string. -/
def agentIdInvalid (body : Option (List (String × JsVal))) : Prop :=
  truthyVal (getField (body.getD []) "agent_id") = false ∨
  ∀ s, getField (body.getD []) "agent_id" ≠ JsVal.str s

/-- The full configuration an agent route needs, as `validateEnvironment`
checks it: identity-provider credentials, provisioning credentials, LLM
endpoint, a set vendor selector, and the selected vendor's fields. -/
def agentConfigComplete (env : Env) : Bool :=
  agoraCredsPresent env && convoAICredsPresent env && llmConfigPresent env
    && truthy env.TTS_VENDOR
    && (if env.TTS_VENDOR.getD "" == "microsoft" then microsoftTTSPresent env
        else if env.TTS_VENDOR.getD "" == "elevenlabs" then elevenLabsTTSPresent env
        else false)

/-! ### Sample data used by closed theorems -/

/-- A fully configured deployment with the Microsoft TTS vendor. -/
def envMicrosoftFull : Env :=
  { AGORA_APP_ID := some "app-id"
    AGORA_APP_CERTIFICATE := some "app-cert"
    AGORA_CONVO_AI_BASE_URL := some "https://api.agora.io/api/conversational-ai-agent/v2/projects"
    AGORA_CUSTOMER_ID := some "cust-id"
    AGORA_CUSTOMER_SECRET := some "cust-secret"
    LLM_URL := some "https://llm.example.com/v1/chat/completions"
    LLM_TOKEN := some "llm-token"
    LLM_MODEL := some "model-name"
    TTS_VENDOR := some "microsoft"
    MICROSOFT_TTS_KEY := some "ms-key"
    MICROSOFT_TTS_REGION := some "eastus"
    MICROSOFT_TTS_VOICE_NAME := some "en-US-AndrewMultilingualNeural"
    MICROSOFT_TTS_RATE := some "1"
    MICROSOFT_TTS_VOLUME := some "70"
    ELEVENLABS_API_KEY := none
    ELEVENLABS_VOICE_ID := none
    ELEVENLABS_MODEL_ID := none
    AGENT_UID := none
    INPUT_MODALITIES := none
    OUTPUT_MODALITIES := none }

/-- `envMicrosoftFull` with the rate and volume variables removed while key,
region and voice name stay present. -/
def envMsNoRate : Env :=
  { envMicrosoftFull with MICROSOFT_TTS_RATE := none, MICROSOFT_TTS_VOLUME := none }

/-- Identity-provider credentials set, every agent-route variable missing. -/
def envAgoraOnly : Env :=
  { AGORA_APP_ID := some "app-id"
    AGORA_APP_CERTIFICATE := some "app-cert"
    AGORA_CONVO_AI_BASE_URL := none
    AGORA_CUSTOMER_ID := none
    AGORA_CUSTOMER_SECRET := none
    LLM_URL := none
    LLM_TOKEN := none
    LLM_MODEL := none
    TTS_VENDOR := none
    MICROSOFT_TTS_KEY := none
    MICROSOFT_TTS_REGION := none
    MICROSOFT_TTS_VOICE_NAME := none
    MICROSOFT_TTS_RATE := none
    MICROSOFT_TTS_VOLUME := none
    ELEVENLABS_API_KEY := none
    ELEVENLABS_VOICE_ID := none
    ELEVENLABS_MODEL_ID := none
    AGENT_UID := none
    INPUT_MODALITIES := none
    OUTPUT_MODALITIES := none }

/-- The TTS configuration `getTTSConfig` resolves for `envMicrosoftFull`. -/
def ttsMsFull : TTSConfig :=
  .microsoft
    { key := "ms-key", region := "eastus"
      voice_name := "en-US-AndrewMultilingualNeural"
      rate := jsParseFloat "1", volume := jsParseFloat "70" }

/-- A vendor configuration without numeric fields, for closed evaluations. -/
def ttsSample : TTSConfig :=
  .elevenlabs { api_key := "el-key", model_id := "el-model", voice_id := "el-voice" }

/-- The invite body of the spec's scenario. -/
def reqDemo : InviteReq :=
  { requester_id := .str "1234", channel_name := "demo-chan"
    input_modalities := none, output_modalities := none }

/-- An upstream service that answers HTTP 503 with body `Service Unavailable`. -/
def upstream503 : AgoraStartRequest → UpstreamResp :=
  fun _ => { ok := false, status := 503, bodyText := "Service Unavailable"
             agentData := { agent_id := "", create_ts := 0, state := "" } }

/-! ### Claims -/

/-- C10: for every invite request that reaches upstream composition, the
composed provisioning request has `idle_timeout = 30` and
`advanced_features.enable_aivad = advanced_features.enable_bhvs = false`,
regardless of client input. -/
theorem C10_fixed_provisioning_fields (env : Env) (req : InviteReq)
    (nowMs : Nat) (rand : String) (tts : TTSConfig) :
    (buildStartRequest env req nowMs rand tts).properties.idle_timeout = 30 ∧
    (buildStartRequest env req nowMs rand tts).properties.advanced_features =
      { enable_aivad := false, enable_bhvs := false } :=
  ⟨rfl, rfl⟩

/-- C6: every credential the system mints — the agent credential composed
into the invite request and the client token of `GET /token` — has both
expiration timestamps equal to the issuance time in whole seconds
(`Date.now() / 1000` floored) plus 3600. -/
theorem C6_credential_ttl :
    (∀ (env : Env) (req : InviteReq) (nowMs : Nat) (rand : String) (tts : TTSConfig),
      (buildStartRequest env req nowMs rand tts).properties.token.tokenExpire =
        nowMs / 1000 + 3600 ∧
      (buildStartRequest env req nowMs rand tts).properties.token.privilegeExpire =
        nowMs / 1000 + 3600) ∧
    (∀ (env : Env) (uidQ chQ : Option String) (nowMs : Nat) (ds : List Char),
      (tokenHandler env uidQ chQ nowMs ds).credential.tokenExpire =
        nowMs / 1000 + 3600 ∧
      (tokenHandler env uidQ chQ nowMs ds).credential.privilegeExpire =
        nowMs / 1000 + 3600) :=
  ⟨fun _ _ _ _ _ => ⟨rfl, rfl⟩, fun _ _ _ _ _ => ⟨rfl, rfl⟩⟩

/-- C4: in every composed provisioning request, `enable_string_uid` is true
iff the stringified `requester_id` contains an ASCII letter, and
`remote_rtc_uids` is exactly the one-element list of the stringified
`requester_id`; in particular `"1234"` yields `false` and `"user-1234"`
yields `true`. -/
theorem C4_enable_string_uid :
    (∀ (env : Env) (req : InviteReq) (nowMs : Nat) (rand : String) (tts : TTSConfig),
      ((buildStartRequest env req nowMs rand tts).properties.enable_string_uid = true ↔
        ∃ c ∈ (jsToString req.requester_id).toList, c.isAlpha = true) ∧
      (buildStartRequest env req nowMs rand tts).properties.remote_rtc_uids =
        [jsToString req.requester_id]) ∧
    (buildStartRequest envMicrosoftFull reqDemo 0 "x" ttsSample).properties.enable_string_uid
      = false ∧
    (buildStartRequest envMicrosoftFull
        { reqDemo with requester_id := .str "user-1234" } 0 "x" ttsSample).properties.enable_string_uid
      = true := by
  refine ⟨fun env req nowMs rand tts => ⟨?_, rfl⟩, by decide, by decide⟩
  simp [buildStartRequest, List.any_eq_true, Char.isAlpha, Bool.or_comm]

/-- C1 counterexample: with a fully configured environment and a valid
invite body, an upstream 503 with body `Service Unavailable` is answered
with client status 500 (not 503) and an error body without any `details`
field, refuting the claimed status passthrough and details echo. -/
theorem C1_counterexample :
    (inviteHandler envMicrosoftFull reqDemo 1710000000000 "abc123" upstream503).1 =
      InviteResult.failure 500 "Failed to start conversation: 503" none ∧
    (inviteHandler envMicrosoftFull reqDemo 1710000000000 "abc123" upstream503).1 ≠
      InviteResult.failure 503 "Failed to start conversation: 503"
        (some "Service Unavailable") := by
  exact ⟨by decide, by decide⟩

/-- C1 (amended): when the upstream provisioning call returns a non-success
status s, the client receives HTTP 500 — not s — with body
`{error: "Failed to start conversation: s"}` and no `details` field; the
upstream status survives only inside the message and the upstream body is
discarded. -/
theorem C1_amended_upstream_error (env : Env) (req : InviteReq) (nowMs : Nat)
    (rand : String) (upstream : AgoraStartRequest → UpstreamResp) (tts : TTSConfig)
    (hv : truthy env.TTS_VENDOR = true)
    (hc : getTTSConfig env (env.TTS_VENDOR.getD "") = .ok tts)
    (hfail : (upstream (buildStartRequest env req nowMs rand tts)).ok = false) :
    (inviteHandler env req nowMs rand upstream).1 =
      InviteResult.failure 500
        ("Failed to start conversation: " ++
          toString (upstream (buildStartRequest env req nowMs rand tts)).status)
        none := by
  simp [inviteHandler, hv, hc, hfail]

/-- Witness for `C1_amended_upstream_error` at the fully configured
Microsoft deployment and the 503 upstream. -/
theorem C1_witness :
    (inviteHandler envMicrosoftFull reqDemo 1710000000000 "abc123" upstream503).1 =
      InviteResult.failure 500
        ("Failed to start conversation: " ++
          toString (upstream503
            (buildStartRequest envMicrosoftFull reqDemo 1710000000000 "abc123" ttsMsFull)).status)
        none :=
  C1_amended_upstream_error envMicrosoftFull reqDemo 1710000000000 "abc123"
    upstream503 ttsMsFull rfl rfl rfl

/-- C3 counterexample: with key, region and voice name present but rate and
volume unset, `getTTSConfig` for vendor `microsoft` fails with the missing
configuration error although the claim requires a Microsoft-shaped result. -/
theorem C3_counterexample :
    truthy envMsNoRate.MICROSOFT_TTS_KEY = true ∧
    truthy envMsNoRate.MICROSOFT_TTS_REGION = true ∧
    truthy envMsNoRate.MICROSOFT_TTS_VOICE_NAME = true ∧
    getTTSConfig envMsNoRate "microsoft" =
      .error "Missing Microsoft TTS environment variables" :=
  ⟨rfl, rfl, rfl, rfl⟩

/-- C3 (amended): `getTTSConfig` returns a Microsoft-shaped configuration
iff the vendor is `"microsoft"` and all five of key, region, voice name,
rate and volume are present; with any of the five missing it fails with the
Microsoft configuration error; analogously for `"elevenlabs"` with key,
voice id and model id; any other vendor fails as unsupported. -/
theorem C3_tts_resolution (env : Env) :
    ((∃ p, getTTSConfig env "microsoft" = .ok (TTSConfig.microsoft p)) ↔
      microsoftTTSPresent env = true) ∧
    (microsoftTTSPresent env = false →
      getTTSConfig env "microsoft" =
        .error "Missing Microsoft TTS environment variables") ∧
    ((∃ p, getTTSConfig env "elevenlabs" = .ok (TTSConfig.elevenlabs p)) ↔
      elevenLabsTTSPresent env = true) ∧
    (elevenLabsTTSPresent env = false →
      getTTSConfig env "elevenlabs" =
        .error "Missing ElevenLabs environment variables") ∧
    (∀ v, v ≠ "microsoft" → v ≠ "elevenlabs" →
      getTTSConfig env v = .error ("Unsupported TTS vendor: " ++ v)) := by
  refine ⟨?_, ?_, ?_, ?_, ?_⟩
  · cases h : microsoftTTSPresent env <;> simp [getTTSConfig, h]
  · intro h; simp [getTTSConfig, h]
  · cases h : elevenLabsTTSPresent env <;> simp [getTTSConfig, h]
  · intro h; simp [getTTSConfig, h]
  · intro v hm he
    simp [getTTSConfig, hm, he]

/-- C2 counterexample: `requester_id = 0` is a non-negative integer and
`" "` is a non-empty string, yet both are rejected — `0` because JavaScript
falsiness triggers the required-field error, `" "` because the code also
trims before testing emptiness. -/
theorem C2_counterexample :
    validateRequestBody "POST" "/agent/invite"
      (some [("requester_id", .num 0), ("channel_name", .str "demo-chan")]) =
      some ⟨400, "requester_id is required"⟩ ∧
    validateRequestBody "POST" "/agent/invite"
      (some [("requester_id", .str " "), ("channel_name", .str "demo-chan")]) =
      some ⟨400, "requester_id cannot be empty"⟩ :=
  ⟨by decide, by decide⟩

/-- C2 (amended): with a valid `channel_name` fixed, invite validation
accepts `requester_id` iff it is a string with non-empty trim, or a number
that is a strictly positive integer (zero, being falsy, is rejected). -/
theorem C2_requester_rules (v : JsVal) :
    validateRequestBody "POST" "/agent/invite"
      (some [("requester_id", v), ("channel_name", .str "demo-chan")]) = none ↔
    requesterAccepted v := by
  have hcc : checkChannelName (.str "demo-chan") = none := by decide
  cases v with
  | str s =>
    by_cases hs : s = ""
    · subst hs
      simp [validateRequestBody, getField, List.find?, truthyVal, requesterAccepted,
        jsTrim]
    · by_cases ht : jsTrim s = ""
      · simp [validateRequestBody, getField, List.find?, truthyVal, requesterAccepted,
          hs, ht]
      · simp [validateRequestBody, getField, List.find?, truthyVal, requesterAccepted,
          hs, ht, hcc]
  | num q =>
    by_cases hq0 : q = 0
    · subst hq0
      simp [validateRequestBody, getField, List.find?, truthyVal, requesterAccepted]
    · by_cases hd : q.den = 1
      · by_cases hng : q < 0
        · have : ¬(0 : Rat) < q := by
            intro hcon; exact absurd (lt_trans hng hcon) (lt_irrefl q)
          simp [validateRequestBody, getField, List.find?, truthyVal, requesterAccepted,
            hq0, hd, hng, this]
        · have hpos : (0 : Rat) < q :=
            lt_of_le_of_ne (not_lt.mp hng) (Ne.symm hq0)
          simp [validateRequestBody, getField, List.find?, truthyVal, requesterAccepted,
            hq0, hd, hng, hcc, hpos]
      · simp [validateRequestBody, getField, List.find?, truthyVal, requesterAccepted,
          hq0, hd]
  | boolv b =>
    cases b <;>
      simp [validateRequestBody, getField, List.find?, truthyVal, requesterAccepted]
  | nullv =>
    simp [validateRequestBody, getField, List.find?, truthyVal, requesterAccepted]
  | undefined =>
    simp [validateRequestBody, getField, List.find?, truthyVal, requesterAccepted]
  | arr xs =>
    simp [validateRequestBody, getField, List.find?, truthyVal, requesterAccepted]

/-- Once the requester is accepted, invite validation reduces to the
`channel_name` checks: the required-field test, then `checkChannelName`. -/
theorem validateInvite_channel (v c : JsVal) (hreq : requesterAccepted v) :
    validateRequestBody "POST" "/agent/invite"
      (some [("requester_id", v), ("channel_name", c)]) =
      (if truthyVal c then checkChannelName c
       else some ⟨400, "channel_name is required"⟩) := by
  rcases hreq with ⟨s, rfl, ht⟩ | ⟨q, rfl, hd, hq⟩
  · have hs : s ≠ "" := by
      intro h; subst h; exact ht rfl
    have hv : truthyVal (JsVal.str s) = true := by simp [truthyVal, hs]
    cases htc : truthyVal c <;>
      simp [validateRequestBody, getField, List.find?, hv, ht, htc]
  · have hq0 : q ≠ 0 := ne_of_gt hq
    have hng : ¬q < 0 := not_lt.mpr (le_of_lt hq)
    have hv : truthyVal (JsVal.num q) = true := by simp [truthyVal, hq0]
    cases htc : truthyVal c <;>
      simp [validateRequestBody, getField, List.find?, hv, hd, hng, htc]

/-- C5: with any accepted `requester_id`, invite validation accepts
`channel_name` iff it is a string of length between 3 and 64; every
rejection is a 400 whose message names `channel_name`. -/
theorem C5_channel_rules (v c : JsVal) (hreq : requesterAccepted v) :
    (validateRequestBody "POST" "/agent/invite"
        (some [("requester_id", v), ("channel_name", c)]) = none ↔
      ∃ s, c = JsVal.str s ∧ 3 ≤ s.length ∧ s.length ≤ 64) ∧
    (∀ e, validateRequestBody "POST" "/agent/invite"
        (some [("requester_id", v), ("channel_name", c)]) = some e →
      e.status = 400 ∧
        (e.error = "channel_name is required" ∨
         e.error = "channel_name must be a string" ∨
         e.error = "channel_name length must be between 3 and 64 characters")) := by
  rw [validateInvite_channel v c hreq]
  constructor
  · cases c with
    | str s =>
      by_cases h0 : s = ""
      · subst h0
        simp [truthyVal, checkChannelName]
      · by_cases h3 : s.length < 3
        · simp [truthyVal, h0, checkChannelName, h3]
        · by_cases h4 : s.length > 64
          · simp [truthyVal, h0, checkChannelName, h3, h4]
          · simp [truthyVal, h0, checkChannelName, h3, h4]
            omega
    | num q =>
      by_cases hq : q = 0 <;> simp [truthyVal, hq, checkChannelName]
    | boolv b =>
      cases b <;> simp [truthyVal, checkChannelName]
    | nullv => simp [truthyVal, checkChannelName]
    | undefined => simp [truthyVal, checkChannelName]
    | arr xs => simp [truthyVal, checkChannelName]
  · intro e he
    cases c with
    | str s =>
      by_cases h0 : s = ""
      · subst h0
        simp [truthyVal, checkChannelName] at he
        simp [← he]
      · by_cases hlen : s.length < 3 ∨ s.length > 64
        · have : checkChannelName (.str s) =
              some ⟨400, "channel_name length must be between 3 and 64 characters"⟩ := by
            rcases hlen with h | h <;> simp [checkChannelName, h]
          simp [truthyVal, h0, this] at he
          simp [← he]
        · have : checkChannelName (.str s) = none := by
            push_neg at hlen
            simp [checkChannelName]
            omega
          simp [truthyVal, h0, this] at he
    | num q =>
      by_cases hq : q = 0 <;>
        simp [truthyVal, hq, checkChannelName] at he <;>
        simp [← he]
    | boolv b =>
      cases b <;> simp [truthyVal, checkChannelName] at he <;> simp [← he]
    | nullv =>
      simp [truthyVal, checkChannelName] at he
      simp [← he]
    | undefined =>
      simp [truthyVal, checkChannelName] at he
      simp [← he]
    | arr xs =>
      simp [truthyVal, checkChannelName] at he
      simp [← he]

/-- Witness for `C5_channel_rules`: requester `"user1"` with channel
`"demo-chan"` (length 9) is accepted. -/
theorem C5_witness :
    validateRequestBody "POST" "/agent/invite"
      (some [("requester_id", JsVal.str "user1"), ("channel_name", JsVal.str "demo-chan")]) =
      none :=
  (C5_channel_rules (JsVal.str "user1") (JsVal.str "demo-chan")
      (Or.inl ⟨"user1", rfl, by decide⟩)).1.mpr
    ⟨"demo-chan", rfl, by decide, by decide⟩

/-- C7 counterexample: the draw `Math.random() = 0.5` renders in base 36 as
`"0.i"`, so `substring(2, 8)` yields the one-character suffix `"i"` and the
generated channel fails the claimed `[a-z0-9]\x7b6\x7d` pattern, while the
`uid` default `"0"` does hold. -/
theorem C7_counterexample :
    isBase36Digit 'i' = true ∧
    (tokenHandler envAgoraOnly none none 1710000000000 ['i']).uid = "0" ∧
    matchesChannelExact
      ((tokenHandler envAgoraOnly none none 1710000000000 ['i']).channel) = false :=
  ⟨by decide, by decide, by decide⟩

/-- C7 (amended): for `GET /token` without query parameters the response
`uid` is `"0"` and the channel is `ai-conversation-<timestamp>-<suffix>`
where the suffix consists of at most six characters from `[a-z0-9]`
(exactly six only when the random draw has at least six base-36 fraction
digits). -/
theorem C7_token_defaults (env : Env) (nowMs : Nat) (ds : List Char)
    (hds : ds.all isBase36Digit = true) :
    (tokenHandler env none none nowMs ds).uid = "0" ∧
    ∃ suf : List Char,
      (tokenHandler env none none nowMs ds).channel =
        "ai-conversation-" ++ toString nowMs ++ "-" ++ String.mk suf ∧
      suf.length ≤ 6 ∧ suf.all isBase36Digit = true := by
  refine ⟨rfl, ds.take 6, ?_, List.length_take_le 6 ds, ?_⟩
  · cases ds with
    | nil => rfl
    | cons c cs => rfl
  · rw [List.all_eq_true] at hds ⊢
    intro x hx
    exact hds x (List.take_subset 6 ds hx)

/-- Witness for `C7_token_defaults` at a seven-digit random fraction. -/
theorem C7_witness :
    (tokenHandler envAgoraOnly none none 1710000000000
        ['a', 'b', 'c', '1', '2', '3', 'x']).uid = "0" ∧
    ∃ suf : List Char,
      (tokenHandler envAgoraOnly none none 1710000000000
          ['a', 'b', 'c', '1', '2', '3', 'x']).channel =
        "ai-conversation-" ++ toString 1710000000000 ++ "-" ++ String.mk suf ∧
      suf.length ≤ 6 ∧ suf.all isBase36Digit = true :=
  C7_token_defaults envAgoraOnly 1710000000000
    ['a', 'b', 'c', '1', '2', '3', 'x'] (by decide)

/-- An upstream leave endpoint that acknowledges every removal. -/
def upstreamLeaveOk : String → UpstreamResp :=
  fun _ => { ok := true, status := 200, bodyText := ""
             agentData := { agent_id := "", create_ts := 0, state := "" } }

/-- C8: a `POST /agent/remove` request whose `agent_id` is missing, falsy
or not a string fails validation with a 400 client error, and the upstream
leave endpoint is never called. -/
theorem C8_remove_validation (env : Env) (req : HttpReq)
    (upstream : String → UpstreamResp)
    (hm : req.method = "POST") (hp : req.path = "/agent/remove")
    (hjson : req.isJson = true)
    (henv : validateEnvironment env "/agent/remove" = none)
    (hbad : agentIdInvalid req.body) :
    (removeRoute env req upstream).status = 400 ∧
    (removeRoute env req upstream).success = false ∧
    (removeRoute env req upstream).upstreamCalled = false := by
  obtain ⟨method, path, isJson, body⟩ := req
  simp only at hm hp hjson hbad
  subst hm; subst hp; subst hjson
  cases body with
  | none =>
    simp [removeRoute, middlewareChain, henv, validateContentType, validateRequestBody]
  | some kvs =>
    cases kvs with
    | nil =>
      simp [removeRoute, middlewareChain, henv, validateContentType, validateRequestBody]
    | cons kv rest =>
      rcases hbad with hfalse | hnostr
      · simp only [Option.getD] at hfalse
        simp [removeRoute, middlewareChain, henv, validateContentType,
          validateRequestBody, hfalse]
      · by_cases hta : truthyVal (getField (kv :: rest) "agent_id") = true
        · cases hgf : getField (kv :: rest) "agent_id" with
          | str s => exact absurd hgf (hnostr s)
          | num q =>
            rw [hgf] at hta
            simp [removeRoute, middlewareChain, henv, validateContentType,
              validateRequestBody, hta, hgf]
          | boolv b =>
            rw [hgf] at hta
            simp [removeRoute, middlewareChain, henv, validateContentType,
              validateRequestBody, hta, hgf]
          | nullv =>
            rw [hgf] at hta
            simp [removeRoute, middlewareChain, henv, validateContentType,
              validateRequestBody, hta, hgf]
          | undefined =>
            rw [hgf] at hta
            simp [removeRoute, middlewareChain, henv, validateContentType,
              validateRequestBody, hta, hgf]
          | arr xs =>
            rw [hgf] at hta
            simp [removeRoute, middlewareChain, henv, validateContentType,
              validateRequestBody, hta, hgf]
        · simp only [Bool.not_eq_true] at hta
          simp [removeRoute, middlewareChain, henv, validateContentType,
            validateRequestBody, hta]

/-- Witness for `C8_remove_validation`: a numeric `agent_id` under the
fully configured deployment is rejected without an upstream call. -/
theorem C8_witness :
    (removeRoute envMicrosoftFull
        { method := "POST", path := "/agent/remove", isJson := true
          body := some [("agent_id", JsVal.num 5)] } upstreamLeaveOk).status = 400 ∧
    (removeRoute envMicrosoftFull
        { method := "POST", path := "/agent/remove", isJson := true
          body := some [("agent_id", JsVal.num 5)] } upstreamLeaveOk).success = false ∧
    (removeRoute envMicrosoftFull
        { method := "POST", path := "/agent/remove", isJson := true
          body := some [("agent_id", JsVal.num 5)] } upstreamLeaveOk).upstreamCalled = false :=
  C8_remove_validation envMicrosoftFull
    { method := "POST", path := "/agent/remove", isJson := true
      body := some [("agent_id", JsVal.num 5)] }
    upstreamLeaveOk rfl rfl rfl (by decide)
    (Or.inr fun s h => JsVal.noConfusion h)

/-- C9 counterexample: with only the identity-provider credentials set —
the LLM endpoint in particular missing — a `GET /token` request passes the
whole middleware chain, so a request with incomplete configuration does
reach content-type, body and field validation instead of being answered
with a 500 configuration error. -/
theorem C9_counterexample :
    truthy envAgoraOnly.LLM_URL = false ∧
    agentConfigComplete envAgoraOnly = false ∧
    middlewareChain envAgoraOnly
      { method := "GET", path := "/token", isJson := false, body := none } = none :=
  ⟨rfl, by decide, by decide⟩

/-- C9 (amended): every configuration failure detected by the environment
middleware is a 500 reported before — and independently of — content-type
and body validation; and for `/agent` routes the middleware passes iff the
full agent configuration (identity provider, provisioning service, LLM,
vendor selector and the selected vendor's fields) is complete.  Non-agent
routes only have the identity-provider credentials checked. -/
theorem C9_config_checks (env : Env) :
    (∀ path e, validateEnvironment env path = some e → e.status = 500) ∧
    (∀ path e, validateEnvironment env path = some e →
      ∀ method isJson body,
        middlewareChain env
          { method := method, path := path, isJson := isJson, body := body } = some e) ∧
    (∀ path, strStartsWith path "/agent" = true →
      (validateEnvironment env path = none ↔ agentConfigComplete env = true)) := by
  refine ⟨?_, ?_, ?_⟩
  · intro path e h
    simp only [validateEnvironment] at h
    repeat' split at h
    all_goals
      first
      | exact Option.noConfusion h
      | (injection h with h2; exact h2 ▸ rfl)
  · intro path e h method isJson body
    simp [middlewareChain, h]
  · intro path hp
    cases h1 : agoraCredsPresent env <;>
    cases h2 : convoAICredsPresent env <;>
    cases h3 : llmConfigPresent env <;>
    cases h4 : truthy env.TTS_VENDOR <;>
      simp [validateEnvironment, agentConfigComplete, hp, h1, h2, h3, h4, beq_iff_eq]
    all_goals
      by_cases hms : env.TTS_VENDOR.getD "" = "microsoft"
      · cases h5 : microsoftTTSPresent env <;> simp [hms, h5]
      · by_cases hel : env.TTS_VENDOR.getD "" = "elevenlabs"
        · cases h6 : elevenLabsTTSPresent env <;> simp [hms, hel, h6]
        · simp [hms, hel]

end ConvoAI
